import Mathlib

/-!
Verification development for the maths-tutor backend
(src/backend: models/student.py, services/memory_service.py,
agents/coordinator_agent.py, agents/math_tutor_agent.py, agents/facts_agent.py).

Python dicts are modelled as insertion-ordered association lists, matching
CPython's dict semantics (assignment to an existing key keeps its position;
assignment to a fresh key appends at the end).  Randomness is modelled by
passing the drawn values as explicit oracle arguments.  Calls into the
external generative model are opaque: the generated text arrives as an
explicit argument.
-/

namespace MathsTutor

/-- Value lookup in an insertion-ordered dict, as Python `d[k]` / `k in d`. -/
def dictGet {κ β : Type} [DecidableEq κ] : List (κ × β) → κ → Option β
  | [], _ => none
  | (k0, v) :: rest, k => if k0 = k then some v else dictGet rest k

/-- Assignment `d[k] = v` on an insertion-ordered dict: overwrite in place if
the key exists, otherwise append at the end (CPython dict semantics). -/
def dictSet {κ β : Type} [DecidableEq κ] : List (κ × β) → κ → β → List (κ × β)
  | [], k, v => [(k, v)]
  | (k0, v0) :: rest, k, v =>
    if k0 = k then (k0, v) :: rest else (k0, v0) :: dictSet rest k v

theorem dictGet_dictSet_self {κ β : Type} [DecidableEq κ]
    (l : List (κ × β)) (k : κ) (v : β) : dictGet (dictSet l k v) k = some v := by
  induction l with
  | nil => simp [dictGet, dictSet]
  | cons hd tl ih =>
    obtain ⟨k0, v0⟩ := hd
    by_cases h : k0 = k
    · simp [dictGet, dictSet, h]
    · simp [dictGet, dictSet, h, ih]

theorem dictSet_dictSet {κ β : Type} [DecidableEq κ]
    (l : List (κ × β)) (k : κ) (v w : β) :
    dictSet (dictSet l k v) k w = dictSet l k w := by
  induction l with
  | nil => simp [dictSet]
  | cons hd tl ih =>
    obtain ⟨k0, v0⟩ := hd
    by_cases h : k0 = k
    · simp [dictSet, h]
    · simp [dictSet, h, ih]

/-- If the keys of the association list are distinct, membership determines
the looked-up value. -/
theorem dictGet_eq_some_of_mem {β : Type} {l : List (Nat × β)} {k : Nat} {v : β}
    (hnd : (l.map Prod.fst).Nodup) (hm : (k, v) ∈ l) : dictGet l k = some v := by
  induction l with
  | nil => cases hm
  | cons hd tl ih =>
    obtain ⟨k0, v0⟩ := hd
    simp only [List.map_cons, List.nodup_cons] at hnd
    rcases List.mem_cons.mp hm with h | h
    · obtain ⟨hk, hv⟩ := Prod.mk.injEq .. ▸ h
      subst hk; subst hv
      simp [dictGet]
    · have hne : k0 ≠ k := by
        intro he
        exact hnd.1 (he ▸ (List.mem_map.mpr ⟨(k, v), h, rfl⟩))
      simp [dictGet, hne, ih hnd.2 h]

/-! ### models/student.py -/

/-- Embeds models/student.py, class QuestionResult.  The datetime timestamp is
modelled as a natural number supplied by the caller. -/
structure QuestionResult where
  timestable : Nat
  question : String
  answer : String
  correct : Bool
  timestamp : Nat
deriving DecidableEq

/-- Embeds models/student.py, class StudentProgress.  weak_areas is the
insertion-ordered dict mapping a timestable to its mistake count. -/
structure StudentProgress where
  student_name : String
  max_timestable : Nat
  total_questions : Nat
  correct_answers : Nat
  weak_areas : List (Nat × Nat)
  question_history : List QuestionResult
deriving DecidableEq

/-- A fresh StudentProgress as constructed in MemoryService.create_session:
all counters zero, empty weak_areas and history. -/
def freshProgress (name : String) (maxT : Nat) : StudentProgress :=
  ⟨name, maxT, 0, 0, [], []⟩

/-- Embeds StudentProgress.update_progress (student.py lines 22-30). -/
def StudentProgress.update_progress (p : StudentProgress) (timestable : Nat)
    (correct : Bool) : StudentProgress :=
  let p1 := { p with total_questions := p.total_questions + 1 }
  if correct then
    { p1 with correct_answers := p1.correct_answers + 1 }
  else
    -- if timestable not in weak_areas: weak_areas[timestable] = 0
    -- weak_areas[timestable] += 1
    let n := (dictGet p1.weak_areas timestable).getD 0
    { p1 with weak_areas := dictSet p1.weak_areas timestable (n + 1) }

/-- Embeds StudentProgress.get_accuracy (student.py lines 32-36), over the
rationals. -/
def StudentProgress.get_accuracy (p : StudentProgress) : ℚ :=
  if p.total_questions = 0 then 0
  else ((p.correct_answers : ℚ) / (p.total_questions : ℚ)) * 100

/-- The comparator of the Python sorted call over weak_areas.items() with
the mistake count as key and reverse order, read as "a may be placed before
b": a's count is at least b's count. -/
def weakOrder (a b : Nat × Nat) : Prop := b.2 ≤ a.2

instance : DecidableRel weakOrder := fun a b => inferInstanceAs (Decidable (b.2 ≤ a.2))

instance : IsTotal (Nat × Nat) weakOrder := ⟨fun a b => Nat.le_total b.2 a.2⟩

instance : IsTrans (Nat × Nat) weakOrder :=
  ⟨fun _ _ _ h1 h2 => Nat.le_trans h2 h1⟩

/-- Python's sorted is a stable sort; List.insertionSort with the same
"may come before" comparator computes the identical list. -/
def sortedWeakAreas (p : StudentProgress) : List (Nat × Nat) :=
  p.weak_areas.insertionSort weakOrder

/-- Embeds StudentProgress.get_weakest_timestables (student.py lines 38-43). -/
def StudentProgress.get_weakest_timestables (p : StudentProgress) (limit : Nat) :
    List Nat :=
  if p.weak_areas = [] then []
  else ((sortedWeakAreas p).take limit).map Prod.fst

/-- The mistake count recorded for a topic, 0 when absent. -/
def mistakeCount (p : StudentProgress) (t : Nat) : Nat :=
  (dictGet p.weak_areas t).getD 0

/-! ### Pause payloads

The pause payload is a Python dict of heterogeneous values.  PVal covers the
value shapes the program stores there: integers, strings, nested dicts, and
the progress.model_dump() blob (a dict whose keys are the StudentProgress
field names; in particular it has no "question_count" key). -/

inductive PVal where
  | nat (n : Nat)
  | str (s : String)
  | dict (entries : List (String × PVal))
  | progressDump (p : StudentProgress)

/-- Embeds models/student.py, class StudentSession.  start_time is an opaque
timestamp; current_state is the Optional[Dict] pause payload. -/
structure StudentSession where
  session_id : String
  student_name : String
  max_timestable : Nat
  start_time : Nat
  progress : StudentProgress
  is_paused : Bool
  current_state : Option (List (String × PVal))

/-! ### services/memory_service.py -/

/-- Embeds services/memory_service.py, class MemoryService: the in-memory
session dict plus the per-session files in data_dir, modelled as a second
dict keyed by session id (each _save_session overwrites one file; records
round-trip through the JSON encoding). -/
structure MemoryService where
  sessions : List (String × StudentSession)
  disk : List (String × StudentSession)

/-- Embeds MemoryService.create_session (memory_service.py lines 18-34):
builds a fresh record, stores it under the id and saves it to disk.  The
source performs no existence check: an id already present is overwritten. -/
def MemoryService.create_session (m : MemoryService) (session_id student_name : String)
    (max_timestable : Nat) (now : Nat) : MemoryService × StudentSession :=
  let progress := freshProgress student_name max_timestable
  let session : StudentSession :=
    ⟨session_id, student_name, max_timestable, now, progress, false, none⟩
  let m1 : MemoryService :=
    ⟨dictSet m.sessions session_id session, dictSet m.disk session_id session⟩
  (m1, session)

/-- Embeds MemoryService.get_session (memory_service.py lines 36-45):
in-memory lookup first, then disk; a disk hit populates the cache. -/
def MemoryService.get_session (m : MemoryService) (session_id : String) :
    MemoryService × Option StudentSession :=
  match dictGet m.sessions session_id with
  | some s => (m, some s)
  | none =>
    match dictGet m.disk session_id with
    | some s => (⟨dictSet m.sessions session_id s, m.disk⟩, some s)
    | none => (m, none)

/-- Embeds MemoryService.update_session (memory_service.py lines 47-51). -/
def MemoryService.update_session (m : MemoryService) (s : StudentSession) :
    MemoryService :=
  ⟨dictSet m.sessions s.session_id s, dictSet m.disk s.session_id s⟩

/-- Embeds MemoryService.pause_session (memory_service.py lines 53-59):
when the session resolves, mark it paused and store the payload; when it does
not, do nothing (the source has no else branch and raises no error). -/
def MemoryService.pause_session (m : MemoryService) (session_id : String)
    (state : List (String × PVal)) : MemoryService :=
  match m.get_session session_id with
  | (m1, some s) =>
    m1.update_session { s with is_paused := true, current_state := some state }
  | (m1, none) => m1

/-- Embeds MemoryService.resume_session (memory_service.py lines 61-70):
when the session resolves and is paused, clear the pause flag and payload and
return the stored payload (itself an Optional, hence the flattened Option);
otherwise return None. -/
def MemoryService.resume_session (m : MemoryService) (session_id : String) :
    MemoryService × Option (List (String × PVal)) :=
  match m.get_session session_id with
  | (m1, some s) =>
    if s.is_paused then
      (m1.update_session { s with is_paused := false, current_state := none },
       s.current_state)
    else (m1, none)
  | (m1, none) => (m1, none)

/-! ### agents/coordinator_agent.py and agents/math_tutor_agent.py state -/

/-- The two activity shapes get_next_activity can delegate to: a math
question, or a fun break (fact or quiz). -/
inductive ActivityKind where
  | question
  | breakTime
deriving DecidableEq

/-- Embeds the mutable state of agents/coordinator_agent.py, class
CoordinatorAgent: the per-session question_count dict.  Values are PVal
because resume_session writes the raw payload value back into the dict. -/
structure CoordinatorAgent where
  question_count : List (String × PVal)

/-- Embeds CoordinatorAgent.start_session (coordinator_agent.py lines 28-59):
creates the session in the memory service and zeroes the turn counter.  The
generated welcome text is external output and not modelled. -/
def CoordinatorAgent.start_session (c : CoordinatorAgent) (m : MemoryService)
    (session_id student_name : String) (max_timestable : Nat) (now : Nat) :
    CoordinatorAgent × MemoryService :=
  let m1 := (m.create_session session_id student_name max_timestable now).1
  (⟨dictSet c.question_count session_id (PVal.nat 0)⟩, m1)

/-- Embeds the turn-counting logic of CoordinatorAgent.get_next_activity
(coordinator_agent.py lines 61-88): default the counter to 0 when the id is
unknown, increment it, and pick a fun break exactly when the new count is
divisible by 3, a math question otherwise.  Incrementing a non-integer
counter value raises TypeError in Python, hence the error case.  Which break
content (fact or quiz) and the generated text are delegated externally. -/
def CoordinatorAgent.get_next_activity (c : CoordinatorAgent) (session_id : String) :
    Except String (CoordinatorAgent × ActivityKind) :=
  let qc0 :=
    match dictGet c.question_count session_id with
    | some _ => c.question_count
    | none => dictSet c.question_count session_id (PVal.nat 0)
  match dictGet qc0 session_id with
  | some (PVal.nat n) =>
    let qc1 := dictSet qc0 session_id (PVal.nat (n + 1))
    if (n + 1) % 3 = 0 then Except.ok (⟨qc1⟩, ActivityKind.breakTime)
    else Except.ok (⟨qc1⟩, ActivityKind.question)
  | _ => Except.error "TypeError"

/-- The activity kinds of the first n get_next_activity calls, as the spec
describes them: turn k (1-based) is a break exactly when 3 divides k. -/
def expectedKinds (n : Nat) : List ActivityKind :=
  (List.range n).map fun i =>
    if (i + 1) % 3 = 0 then ActivityKind.breakTime else ActivityKind.question

/-- Runs n successive get_next_activity calls, collecting the kinds. -/
def activitySeq (c : CoordinatorAgent) (session_id : String) :
    Nat → Except String (CoordinatorAgent × List ActivityKind)
  | 0 => Except.ok (c, [])
  | n + 1 =>
    match activitySeq c session_id n with
    | Except.ok (c1, ks) =>
      match c1.get_next_activity session_id with
      | Except.ok (c2, k) => Except.ok (c2, ks ++ [k])
      | Except.error e => Except.error e
    | Except.error e => Except.error e

/-- Result of CoordinatorAgent.pause_session: its status field. -/
structure PauseResult where
  status : String

/-- Result of CoordinatorAgent.resume_session: its status field. -/
structure ResumeResult where
  status : String

/-- Embeds MathTutorAgent.pause_state (math_tutor_agent.py lines 161-170):
an empty dict when the session does not resolve, else agent name plus the
progress dump. -/
def MathTutorAgent.pause_state (m : MemoryService) (session_id : String) :
    MemoryService × List (String × PVal) :=
  match m.get_session session_id with
  | (m1, none) => (m1, [])
  | (m1, some s) =>
    (m1, [("agent", PVal.str "MathTutor"), ("progress", PVal.progressDump s.progress)])

/-- Embeds FactsAgent.pause_state (facts_agent.py lines 208-213). -/
def FactsAgent.pause_state : List (String × PVal) :=
  [("agent", PVal.str "FactsExpert"), ("status", PVal.str "paused")]

/-- Embeds CoordinatorAgent.pause_session (coordinator_agent.py lines
115-138): gather the child states, bundle them with the turn counter
(question_count.get(session_id, 0)), delegate to the memory service, and
report status "paused" unconditionally. -/
def CoordinatorAgent.pause_session (c : CoordinatorAgent) (m : MemoryService)
    (session_id : String) : CoordinatorAgent × MemoryService × PauseResult :=
  let (m1, math_state) := MathTutorAgent.pause_state m session_id
  let facts_state := FactsAgent.pause_state
  let qcVal := (dictGet c.question_count session_id).getD (PVal.nat 0)
  let state : List (String × PVal) :=
    [("coordinator", PVal.dict [("question_count", qcVal)]),
     ("math_tutor", PVal.dict math_state),
     ("facts_agent", PVal.dict facts_state)]
  let m2 := m1.pause_session session_id state
  (c, m2, ⟨"paused"⟩)

/-- Embeds CoordinatorAgent.resume_session (coordinator_agent.py lines
140-172).  The memory service hands back the stored payload; a falsy payload
(None or the empty dict) takes the else branch reporting status "error".  A
truthy payload restores question_count from its "coordinator" entry when that
key is present: dict values restore via .get("question_count", 0) (a progress
dump is a dict without that key, so it restores the default 0), while an int
or str value has no .get attribute and raises AttributeError. -/
def CoordinatorAgent.resume_session (c : CoordinatorAgent) (m : MemoryService)
    (session_id : String) :
    Except String (CoordinatorAgent × MemoryService × ResumeResult) :=
  match m.resume_session session_id with
  | (m1, some []) => Except.ok (c, m1, ⟨"error"⟩)
  | (m1, some (e0 :: d0)) =>
      let d := e0 :: d0
      let restored : Option CoordinatorAgent :=
        match dictGet d "coordinator" with
        | some (PVal.dict cd) =>
          some ⟨dictSet c.question_count session_id
                  ((dictGet cd "question_count").getD (PVal.nat 0))⟩
        | some (PVal.progressDump _) =>
          some ⟨dictSet c.question_count session_id (PVal.nat 0)⟩
        | some _ => none
        | none => some c
      match restored with
      | none => Except.error "AttributeError"
      | some c1 =>
        -- session = await memory_service.get_session(session_id);
        -- session.student_name would raise on None
        match m1.get_session session_id with
        | (m2, some _) => Except.ok (c1, m2, ⟨"resumed"⟩)
        | (_, none) => Except.error "AttributeError"
  | (m1, none) => Except.ok (c, m1, ⟨"error"⟩)

/-! ### agents/math_tutor_agent.py -/

/-- Models random.choice(xs): some element of xs when xs is non-empty (the
oracle u selects which), and IndexError (none) on the empty list. -/
def pyChoice {α : Type} (xs : List α) (u : Nat) : Option α :=
  xs.get? (u % xs.length)

/-- Models random.randint(1, n): a uniform draw from [1, n] (the oracle u
selects which), and ValueError (none) when the range is empty. -/
def pyRandint1 (n : Nat) (u : Nat) : Option Nat :=
  if n = 0 then none else some (1 + u % n)

/-- Embeds MathTutorAgent._select_timestable (math_tutor_agent.py lines
149-159): when weak_areas is non-empty and the draw r falls below 0.7, pick
uniformly among get_weakest_timestables(limit 3); otherwise draw uniformly
from [1, max_timestable].  The short-circuit of the Python conjunction means
the empty weak set never reaches random.choice. -/
def MathTutorAgent.select_timestable (progress : StudentProgress)
    (max_timestable : Nat) (r : ℚ) (wc uc : Nat) : Option Nat :=
  if progress.weak_areas ≠ [] ∧ r < 7/10 then
    pyChoice (progress.get_weakest_timestables 3) wc
  else
    pyRandint1 max_timestable uc

/-- The question payload built by MathTutorAgent.generate_question. -/
structure QuestionData where
  question : String
  timestable : Nat
  multiplier : Nat
  expected_answer : Int
  session_id : String

/-- Embeds MathTutorAgent.generate_question (math_tutor_agent.py lines
22-59): resolve the session (ValueError when absent), select the timestable
and a multiplier in [1, 12], and return the payload with
expected_answer = timestable * multiplier.  The generated question text
arrives as the opaque argument qtext. -/
def MathTutorAgent.generate_question (m : MemoryService) (session_id : String)
    (r : ℚ) (wc uc mc : Nat) (qtext : String) :
    Except String (MemoryService × QuestionData) :=
  match m.get_session session_id with
  | (_, none) => Except.error "ValueError: session not found"
  | (m1, some s) =>
    match MathTutorAgent.select_timestable s.progress s.max_timestable r wc uc with
    | none => Except.error "ValueError"
    | some timestable =>
      match pyRandint1 12 mc with
      | none => Except.error "ValueError"
      | some multiplier =>
        Except.ok (m1,
          ⟨qtext, timestable, multiplier, (timestable : Int) * (multiplier : Int),
           session_id⟩)

/-- The response payload of MathTutorAgent.evaluate_answer (the generated
feedback text is external and not modelled). -/
structure EvalResult where
  correct : Bool
  expected_answer : Int
  accuracy : ℚ
  total_questions : Nat

/-! ### Python string primitives

These model the str methods the agents use, over the character list of the
string, so that every definition evaluates by kernel reduction.  They follow
CPython semantics on ASCII input (the whitespace set is space, tab, CR, LF). -/

/-- Python str.strip seen from the left. -/
def stripLeftL : List Char → List Char
  | [] => []
  | c :: cs => if c.isWhitespace then stripLeftL cs else c :: cs

/-- Models Python str.strip(): remove leading and trailing whitespace. -/
def pyStrip (s : String) : String :=
  String.mk ((stripLeftL (stripLeftL s.toList.reverse).reverse))

/-- Models Python str.upper() on ASCII text. -/
def pyUpper (s : String) : String :=
  String.mk (s.toList.map Char.toUpper)

/-- Does the character list start with the given pattern (str.startswith)? -/
def startsWithL : List Char → List Char → Bool
  | _, [] => true
  | [], _ :: _ => false
  | c :: cs, p :: ps => c = p && startsWithL cs ps

/-- Models Python str.startswith. -/
def pyStartsWith (s pat : String) : Bool :=
  startsWithL s.toList pat.toList

/-- Models Python str.replace for a non-empty pattern (the only way the
program calls it): replace every non-overlapping occurrence, scanning left to
right.  The fuel argument, called with the length of the scanned list, makes
the recursion structural; fuel never runs out because each step consumes at
least one character. -/
def replaceFuelL (pat rep : List Char) : Nat → List Char → List Char
  | 0, s => s
  | _ + 1, [] => []
  | fuel + 1, c :: cs =>
    if !pat.isEmpty && startsWithL (c :: cs) pat then
      rep ++ replaceFuelL pat rep fuel (List.drop pat.length (c :: cs))
    else c :: replaceFuelL pat rep fuel cs

/-- Models Python str.replace (non-empty pattern). -/
def pyReplace (s pat rep : String) : String :=
  String.mk (replaceFuelL pat.toList rep.toList s.toList.length s.toList)

/-- Splits a character list at every occurrence of the separator character;
like Python str.split(sep) with a one-character sep, empty parts kept. -/
def splitCharAux (sep : Char) : List Char → List Char → List (List Char)
  | [], acc => [acc.reverse]
  | c :: cs, acc =>
    if c = sep then acc.reverse :: splitCharAux sep cs []
    else splitCharAux sep cs (c :: acc)

/-- Models Python s.split(newline). -/
def pySplitLines (s : String) : List String :=
  (splitCharAux (Char.ofNat 10) s.toList []).map String.mk

/-- Digit run with CPython underscore rules (int accepts single underscores
standing between two digits): called after the first digit was seen. -/
def pyDigitsVal : List Char → Nat → Option Nat
  | [], acc => some acc
  | c :: rest, acc =>
    if c.isDigit then pyDigitsVal rest (acc * 10 + (c.toNat - 48))
    else if c = Char.ofNat 95 then
      match rest with
      | c2 :: _ => if c2.isDigit then pyDigitsVal rest acc else none
      | [] => none
    else none

/-- The unsigned part of int(str): at least one digit, underscores only
between digits. -/
def pyNatPart : List Char → Option Nat
  | [] => none
  | c :: rest => if c.isDigit then pyDigitsVal (c :: rest) 0 else none

/-- Models CPython int(str) on ASCII input: surrounding whitespace stripped,
one optional sign, then a digit run; none models ValueError. -/
def pyParseInt (s : String) : Option Int :=
  match (pyStrip s).toList with
  | '+' :: rest => (pyNatPart rest).map fun n => (n : Int)
  | '-' :: rest => (pyNatPart rest).map fun n => -(n : Int)
  | rest => (pyNatPart rest).map fun n => (n : Int)

/-- The try/except int-parse and comparison of MathTutorAgent.evaluate_answer
(math_tutor_agent.py lines 67-72): a ValueError from int() scores as
incorrect, otherwise correctness is equality with expected_answer. -/
def scoreAnswer (qd : QuestionData) (user_answer : String) : Bool :=
  match pyParseInt user_answer with
  | some n => n == qd.expected_answer
  | none => false

/-- The session mutation of MathTutorAgent.evaluate_answer (math_tutor_agent.py
lines 76-87): update the progress counters and append the history entry. -/
def updatedSession (s : StudentSession) (qd : QuestionData) (user_answer : String)
    (is_correct : Bool) (now : Nat) : StudentSession :=
  let p1 := s.progress.update_progress qd.timestable is_correct
  let entry : QuestionResult :=
    ⟨qd.timestable, qd.question, user_answer, is_correct, now⟩
  let p2 := { p1 with question_history := p1.question_history ++ [entry] }
  { s with progress := p2 }

/-- Embeds MathTutorAgent.evaluate_answer (math_tutor_agent.py lines 61-113):
resolve the session (ValueError when absent); int-parse the raw answer, a
parse failure scoring as incorrect; update the progress and append the
history entry; persist; and return correctness, the expected answer, the new
accuracy and question total.  The generated feedback text is external. -/
def MathTutorAgent.evaluate_answer (m : MemoryService) (session_id : String)
    (qd : QuestionData) (user_answer : String) (now : Nat) :
    Except String (MemoryService × EvalResult) :=
  match m.get_session session_id with
  | (_, none) => Except.error "ValueError: session not found"
  | (m1, some s) =>
    let is_correct := scoreAnswer qd user_answer
    let s1 := updatedSession s qd user_answer is_correct now
    let m2 := m1.update_session s1
    Except.ok (m2,
      ⟨is_correct, qd.expected_answer, s1.progress.get_accuracy,
       s1.progress.total_questions⟩)

/-! ### agents/facts_agent.py -/

/-- The quiz payload built by FactsAgent.generate_fact_quiz; options is the
insertion-ordered dict of answer options. -/
structure QuizData where
  category : String
  question : String
  options : List (String × String)
  correct_answer : String
  explanation : String
deriving DecidableEq

/-- One step of the line loop in FactsAgent.generate_fact_quiz (facts_agent.py
lines 138-153): strip the line, then the if/elif chain over the markers. -/
def quizLineStep (st : QuizData) (line : String) : QuizData :=
  let l := pyStrip line
  if pyStartsWith l "QUESTION:" then
    { st with question := pyStrip (pyReplace l "QUESTION:" "") }
  else if pyStartsWith l "A)" then
    { st with options := dictSet st.options "A" (pyStrip (pyReplace l "A)" "")) }
  else if pyStartsWith l "B)" then
    { st with options := dictSet st.options "B" (pyStrip (pyReplace l "B)" "")) }
  else if pyStartsWith l "C)" then
    { st with options := dictSet st.options "C" (pyStrip (pyReplace l "C)" "")) }
  else if pyStartsWith l "D)" then
    { st with options := dictSet st.options "D" (pyStrip (pyReplace l "D)" "")) }
  else if pyStartsWith l "CORRECT:" then
    { st with correct_answer := pyStrip (pyReplace l "CORRECT:" "") }
  else if pyStartsWith l "EXPLANATION:" then
    { st with explanation := pyStrip (pyReplace l "EXPLANATION:" "") }
  else st

/-- Embeds the parsing part of FactsAgent.generate_fact_quiz (facts_agent.py
lines 128-175) applied to the generated text: split into lines and fold the
if/elif chain, starting from empty fields.  Every operation in the source's
try block is total, so the except fallback (which would return the raw text
as the question) is unreachable and the parse result is always returned. -/
def FactsAgent.parse_fact_quiz (quiz_text category : String) : QuizData :=
  List.foldl quizLineStep ⟨category, "", [], "", ""⟩ (pySplitLines (pyStrip quiz_text))

/-- Embeds the comparison core of FactsAgent.evaluate_quiz_answer
(facts_agent.py lines 177-184): quiz_data.get("correct_answer", "") is the
Option argument (none models an absent key); both sides are stripped and
uppercased before the equality test.  The generated feedback is external. -/
def FactsAgent.evaluate_quiz_answer (correct_answer_field : Option String)
    (user_answer : String) : Bool :=
  pyUpper (pyStrip user_answer) == pyUpper (pyStrip (correct_answer_field.getD ""))

/-! ### Auxiliary sequences and fixtures -/

/-- Replays a list of update_progress calls (topic, correct) from a given
starting progress, left to right. -/
def applyUpdates (p : StudentProgress) (calls : List (Nat × Bool)) : StudentProgress :=
  List.foldl (fun q c => q.update_progress c.1 c.2) p calls

/-- The status reported by a resume_session result, none on an exception. -/
def resumeStatus (r : Except String (CoordinatorAgent × MemoryService × ResumeResult)) :
    Option String :=
  match r with
  | Except.ok (_, _, res) => some res.status
  | Except.error _ => none

/-- The coordinator's stored turn counter for a session after a
resume_session result, none on an exception. -/
def resumeCounter (r : Except String (CoordinatorAgent × MemoryService × ResumeResult))
    (session_id : String) : Option PVal :=
  match r with
  | Except.ok (c, _, _) => dictGet c.question_count session_id
  | Except.error _ => none

/-- Fixture: the session record create_session builds for learner Ana. -/
def sAna : StudentSession :=
  (MemoryService.create_session ⟨[], []⟩ "s1" "Ana" 12 0).2

/-- Fixture: a memory service holding exactly Ana's fresh session. -/
def mAna : MemoryService :=
  (MemoryService.create_session ⟨[], []⟩ "s1" "Ana" 12 0).1

/-! ## Supporting lemmas -/

theorem update_progress_total (p : StudentProgress) (t : Nat) (b : Bool) :
    (p.update_progress t b).total_questions = p.total_questions + 1 := by
  cases b <;> simp [StudentProgress.update_progress]

theorem update_progress_le (p : StudentProgress) (t : Nat) (b : Bool)
    (h : p.correct_answers ≤ p.total_questions) :
    (p.update_progress t b).correct_answers ≤ (p.update_progress t b).total_questions := by
  cases b <;> simp [StudentProgress.update_progress] <;> omega

theorem applyUpdates_total (calls : List (Nat × Bool)) :
    ∀ p : StudentProgress,
      (applyUpdates p calls).total_questions = p.total_questions + calls.length := by
  induction calls with
  | nil => intro p; simp [applyUpdates]
  | cons hd tl ih =>
    intro p
    have h1 := ih (p.update_progress hd.1 hd.2)
    simp only [applyUpdates, List.foldl_cons] at h1 ⊢
    rw [h1, update_progress_total, List.length_cons]
    omega

theorem applyUpdates_le (calls : List (Nat × Bool)) :
    ∀ p : StudentProgress, p.correct_answers ≤ p.total_questions →
      (applyUpdates p calls).correct_answers ≤ (applyUpdates p calls).total_questions := by
  induction calls with
  | nil => intro p h; simpa [applyUpdates] using h
  | cons hd tl ih =>
    intro p h
    have h1 := ih (p.update_progress hd.1 hd.2) (update_progress_le p hd.1 hd.2 h)
    simpa [applyUpdates, List.foldl_cons] using h1

theorem get_next_activity_nat {c : CoordinatorAgent} {sid : String} {n : Nat}
    (h : dictGet c.question_count sid = some (PVal.nat n)) :
    c.get_next_activity sid =
      Except.ok (⟨dictSet c.question_count sid (PVal.nat (n + 1))⟩,
        if (n + 1) % 3 = 0 then ActivityKind.breakTime else ActivityKind.question) := by
  unfold CoordinatorAgent.get_next_activity
  simp only [h]
  by_cases h3 : (n + 1) % 3 = 0 <;> simp [h3]

/-! ## C1 - get_weakest_timestables ordering, ties, truncation -/

/-- C1: get_weakest_timestables returns at most limit topics; the empty list
when weak_areas is empty; topics in non-increasing order of mistake count
(when the dict keys are distinct, as dict keys are); ties between equal
counts keep the insertion order of weak_areas (stability of the sort); and on
the dict 5 maps-to 3, 7 maps-to 3, 2 maps-to 1 inserted in that order,
get_weakest_timestables 2 = [5, 7]. -/
theorem weakest_timestables_spec :
    (∀ (p : StudentProgress) (limit : Nat),
      (p.get_weakest_timestables limit).length ≤ limit) ∧
    (∀ (p : StudentProgress) (limit : Nat), p.weak_areas = [] →
      p.get_weakest_timestables limit = []) ∧
    (∀ (p : StudentProgress) (limit : Nat), (p.weak_areas.map Prod.fst).Nodup →
      (p.get_weakest_timestables limit).Pairwise
        (fun t u => mistakeCount p u ≤ mistakeCount p t)) ∧
    (∀ (p : StudentProgress) (a b : Nat × Nat), a.2 = b.2 →
      List.Sublist [a, b] p.weak_areas → List.Sublist [a, b] (sortedWeakAreas p)) ∧
    StudentProgress.get_weakest_timestables
      ⟨"x", 12, 4, 0, [(5, 3), (7, 3), (2, 1)], []⟩ 2 = [5, 7] := by
  refine ⟨?_, ?_, ?_, ?_, by decide⟩
  · intro p limit
    unfold StudentProgress.get_weakest_timestables
    by_cases hw : p.weak_areas = []
    · simp [hw]
    · rw [if_neg hw]
      simp only [List.length_map, List.length_take]
      omega
  · intro p limit hw
    simp [StudentProgress.get_weakest_timestables, hw]
  · intro p limit hnd
    by_cases hw : p.weak_areas = []
    · simp [StudentProgress.get_weakest_timestables, hw]
    · have hs : List.Sorted weakOrder (sortedWeakAreas p) :=
        List.sorted_insertionSort weakOrder p.weak_areas
      have htake : ((sortedWeakAreas p).take limit).Pairwise weakOrder :=
        List.Pairwise.sublist (List.take_sublist limit (sortedWeakAreas p)) hs
      have hmem : ∀ x ∈ (sortedWeakAreas p).take limit, x ∈ p.weak_areas := by
        intro x hx
        exact (List.perm_insertionSort weakOrder p.weak_areas).subset
          (List.mem_of_mem_take hx)
      have himp : ((sortedWeakAreas p).take limit).Pairwise
          (fun a b : Nat × Nat => mistakeCount p b.1 ≤ mistakeCount p a.1) := by
        refine htake.imp_of_mem ?_
        intro a b ha hb hr
        have hga : dictGet p.weak_areas a.1 = some a.2 :=
          dictGet_eq_some_of_mem hnd (by simpa using hmem a ha)
        have hgb : dictGet p.weak_areas b.1 = some b.2 :=
          dictGet_eq_some_of_mem hnd (by simpa using hmem b hb)
        simpa [mistakeCount, hga, hgb] using hr
      have : ((sortedWeakAreas p).take limit).map Prod.fst |>.Pairwise
          (fun t u => mistakeCount p u ≤ mistakeCount p t) :=
        List.pairwise_map.mpr himp
      simpa [StudentProgress.get_weakest_timestables, hw] using this
  · intro p a b hab hsub
    exact List.pair_sublist_insertionSort (le_of_eq hab.symm) hsub

/-- Witness for C1 at concrete inputs. -/
theorem weakest_timestables_spec_witness :
    ((⟨"x", 12, 0, 0, [], []⟩ : StudentProgress).weak_areas = [] ∧
      (⟨"x", 12, 0, 0, [], []⟩ : StudentProgress).get_weakest_timestables 3 = []) ∧
    (((⟨"x", 12, 4, 0, [(5, 3), (7, 3), (2, 1)], []⟩ :
        StudentProgress).weak_areas.map Prod.fst).Nodup ∧
      ((⟨"x", 12, 4, 0, [(5, 3), (7, 3), (2, 1)], []⟩ :
        StudentProgress).get_weakest_timestables 2).Pairwise
        (fun t u =>
          mistakeCount ⟨"x", 12, 4, 0, [(5, 3), (7, 3), (2, 1)], []⟩ u ≤
          mistakeCount ⟨"x", 12, 4, 0, [(5, 3), (7, 3), (2, 1)], []⟩ t)) ∧
    (((5, 3) : Nat × Nat).2 = ((7, 3) : Nat × Nat).2 ∧
      List.Sublist [(5, 3), (7, 3)] [(5, 3), (7, 3), (2, 1)] ∧
      List.Sublist [(5, 3), (7, 3)]
        (sortedWeakAreas ⟨"x", 12, 4, 0, [(5, 3), (7, 3), (2, 1)], []⟩)) :=
  ⟨⟨rfl, weakest_timestables_spec.2.1 ⟨"x", 12, 0, 0, [], []⟩ 3 rfl⟩,
   ⟨by decide, weakest_timestables_spec.2.2.1
      ⟨"x", 12, 4, 0, [(5, 3), (7, 3), (2, 1)], []⟩ 2 (by decide)⟩,
   ⟨rfl, by decide,
    weakest_timestables_spec.2.2.2.1 ⟨"x", 12, 4, 0, [(5, 3), (7, 3), (2, 1)], []⟩
      (5, 3) (7, 3) rfl (by decide)⟩⟩

/-! ## C6 - break every third turn -/

/-- C6: after start_session zeroes the counter, the k-th get_next_activity
call (1-based) selects a break exactly when 3 divides k and a math question
otherwise; no call errors, and after n calls the stored counter is n. -/
theorem next_activity_break_cadence :
    ∀ (c : CoordinatorAgent) (m : MemoryService) (sid name : String)
      (maxT now n : Nat),
      activitySeq ((c.start_session m sid name maxT now).1) sid n =
        Except.ok (⟨dictSet c.question_count sid (PVal.nat n)⟩, expectedKinds n) := by
  intro c m sid name maxT now n
  induction n with
  | zero => simp [activitySeq, CoordinatorAgent.start_session, expectedKinds]
  | succ k ih =>
    have hstep := @get_next_activity_nat
      ⟨dictSet c.question_count sid (PVal.nat k)⟩ sid k
      (dictGet_dictSet_self c.question_count sid (PVal.nat k))
    simp only [activitySeq, ih, hstep, dictSet_dictSet]
    simp [expectedKinds, List.range_succ]

/-! ## C7 - progress counters invariant and accuracy -/

/-- C7: replaying any sequence of update_progress calls from a fresh
progress store keeps correct_answers at most total_questions, leaves
total_questions equal to the number of calls, and get_accuracy is
correct/total*100, 0 when total_questions is 0.  Every prefix of a call
sequence is itself a call sequence, so the invariant holds after every
call. -/
theorem progress_invariant :
    ∀ (name : String) (maxT : Nat) (calls : List (Nat × Bool)),
      ((applyUpdates (freshProgress name maxT) calls).correct_answers ≤
        (applyUpdates (freshProgress name maxT) calls).total_questions) ∧
      (applyUpdates (freshProgress name maxT) calls).total_questions = calls.length ∧
      (∀ p : StudentProgress,
        p.get_accuracy =
          if p.total_questions = 0 then 0
          else ((p.correct_answers : ℚ) / (p.total_questions : ℚ)) * 100) := by
  intro name maxT calls
  refine ⟨applyUpdates_le calls (freshProgress name maxT) (by simp [freshProgress]),
    ?_, fun p => rfl⟩
  have h := applyUpdates_total calls (freshProgress name maxT)
  simpa [freshProgress] using h

/-! ## C3 - create_session overwrites instead of failing -/

/-- C3 counterexample: creating a second session under an id already present
in memory does not fail and silently replaces the existing record (Ana's
record becomes Bob's), contradicting the claimed AlreadyExists error. -/
theorem create_session_counterexample :
    (dictGet mAna.sessions "s1").map (fun s => s.student_name) = some "Ana" ∧
    (dictGet (mAna.create_session "s1" "Bob" 5 1).1.sessions "s1").map
      (fun s => s.student_name) = some "Bob" ∧
    ("Bob" : String) ≠ "Ana" :=
  ⟨rfl, rfl, by decide⟩

/-- C3 amended: create_session never fails; for every id, present or not, it
builds the fresh record, installs it in the in-memory map (replacing any
existing record) and immediately persists it to disk. -/
theorem create_session_amended :
    ∀ (m : MemoryService) (sid name : String) (maxT now : Nat),
      (m.create_session sid name maxT now).2 =
        ⟨sid, name, maxT, now, freshProgress name maxT, false, none⟩ ∧
      dictGet (m.create_session sid name maxT now).1.sessions sid =
        some ⟨sid, name, maxT, now, freshProgress name maxT, false, none⟩ ∧
      dictGet (m.create_session sid name maxT now).1.disk sid =
        some ⟨sid, name, maxT, now, freshProgress name maxT, false, none⟩ := by
  intro m sid name maxT now
  refine ⟨rfl, ?_, ?_⟩ <;>
    simp [MemoryService.create_session, dictGet_dictSet_self]

/-! ## C4 - pause of an unknown session is a silent no-op -/

theorem get_session_none_fst {m : MemoryService} {sid : String}
    (h : (m.get_session sid).2 = none) : (m.get_session sid).1 = m := by
  unfold MemoryService.get_session at h ⊢
  cases h1 : dictGet m.sessions sid with
  | some s => simp [h1] at h
  | none =>
    cases h2 : dictGet m.disk sid with
    | some s => simp [h1, h2] at h
    | none => simp [h1, h2]

/-- C4 counterexample: pausing a session id that resolves neither in memory
nor on disk leaves the repository unchanged and raises nothing, and the
coordinator still reports status "paused" - there is no NotFound failure. -/
theorem pause_session_counterexample :
    (MemoryService.get_session ⟨[], []⟩ "ghost").2 = none ∧
    MemoryService.pause_session ⟨[], []⟩ "ghost" [] = ⟨[], []⟩ ∧
    (CoordinatorAgent.pause_session ⟨[]⟩ ⟨[], []⟩ "ghost").2.2.status = "paused" :=
  ⟨rfl, rfl, rfl⟩

/-- C4 amended: pause_session on an unresolvable id is a silent no-op (the
repository state is returned unchanged, no error), and the coordinator
reports status "paused" for every id; on a resolvable id the record is
marked paused with the payload stored, in memory and on disk. -/
theorem pause_session_amended :
    ∀ (m : MemoryService) (c : CoordinatorAgent) (sid : String)
      (st : List (String × PVal)),
      ((m.get_session sid).2 = none → m.pause_session sid st = m) ∧
      (c.pause_session m sid).2.2.status = "paused" ∧
      (∀ s : StudentSession, (m.get_session sid).2 = some s → s.session_id = sid →
        dictGet (m.pause_session sid st).sessions sid =
          some { s with is_paused := true, current_state := some st } ∧
        dictGet (m.pause_session sid st).disk sid =
          some { s with is_paused := true, current_state := some st }) := by
  intro m c sid st
  refine ⟨?_, ?_, ?_⟩
  · intro h
    unfold MemoryService.pause_session
    rcases hg : m.get_session sid with ⟨m1, o⟩
    have ho : o = none := by rw [hg] at h; exact h
    have hm1 : m1 = m := by
      have := @get_session_none_fst m sid (by rw [hg, ho])
      rw [hg] at this; exact this
    subst ho; subst hm1; rfl
  · rcases hps : MathTutorAgent.pause_state m sid with ⟨m1, ms⟩
    simp [CoordinatorAgent.pause_session, hps]
  · intro s hg hid
    rcases hg2 : m.get_session sid with ⟨m1, o⟩
    have ho : o = some s := by rw [hg2] at hg; exact hg
    subst ho
    have hpause : m.pause_session sid st =
        m1.update_session { s with is_paused := true, current_state := some st } := by
      unfold MemoryService.pause_session
      rw [hg2]
    rw [hpause]
    unfold MemoryService.update_session
    constructor <;> simp [hid, dictGet_dictSet_self]

/-- Witness for C4 at concrete inputs: pausing Ana's resolvable session. -/
theorem pause_session_amended_witness :
    ((mAna.get_session "s1").2 = some sAna ∧ sAna.session_id = "s1") ∧
    (dictGet (mAna.pause_session "s1" []).sessions "s1" =
      some { sAna with is_paused := true, current_state := some [] } ∧
     dictGet (mAna.pause_session "s1" []).disk "s1" =
      some { sAna with is_paused := true, current_state := some [] }) :=
  ⟨⟨rfl, rfl⟩,
   (pause_session_amended mAna ⟨[]⟩ "s1" []).2.2 sAna rfl rfl⟩

/-! ## C2 - resume and the pause payload -/

/-- C2 counterexample: a session paused through the repository with an empty
payload is genuinely paused, yet resume_session reports status "error"
instead of resuming; and for a paused session whose truthy payload lacks the
"coordinator" key, resume reports "resumed" but leaves the stored turn
counter at its stale value 42 instead of defaulting it to 0. -/
theorem resume_session_counterexample :
    ((dictGet (mAna.pause_session "s1" []).sessions "s1").map
        (fun s => s.is_paused) = some true ∧
      resumeStatus (CoordinatorAgent.resume_session ⟨[]⟩
        (mAna.pause_session "s1" []) "s1") = some "error") ∧
    (resumeStatus (CoordinatorAgent.resume_session ⟨[("s1", PVal.nat 42)]⟩
        (mAna.pause_session "s1" [("math_tutor", PVal.dict [])]) "s1") =
          some "resumed" ∧
      resumeCounter (CoordinatorAgent.resume_session ⟨[("s1", PVal.nat 42)]⟩
        (mAna.pause_session "s1" [("math_tutor", PVal.dict [])]) "s1") "s1" =
          some (PVal.nat 42) ∧
      (42 : Nat) ≠ 0) :=
  ⟨⟨rfl, rfl⟩, rfl, rfl, by decide⟩

/-- C2 amended: for a paused session, resume_session restores the turn
counter from the payload's coordinator dict via its question_count entry,
defaulting to 0 only when that entry is absent from a present coordinator
dict, unpauses the record, and reports "resumed"; when the payload is truthy
but has no "coordinator" key the counter is left untouched; and when the
stored payload is the empty dict the coordinator reports status "error"
instead of resuming (the repository has nevertheless already cleared the
pause flag). -/
theorem resume_session_amended :
    ∀ (c : CoordinatorAgent) (m : MemoryService) (sid : String)
      (s : StudentSession) (d : List (String × PVal)),
      (m.get_session sid).2 = some s → s.session_id = sid →
      s.is_paused = true → s.current_state = some d →
      ((d = [] → c.resume_session m sid =
          Except.ok (c,
            (m.get_session sid).1.update_session
              { s with is_paused := false, current_state := none },
            ⟨"error"⟩)) ∧
       (∀ cd, dictGet d "coordinator" = some (PVal.dict cd) →
          c.resume_session m sid =
            Except.ok
              (⟨dictSet c.question_count sid
                  ((dictGet cd "question_count").getD (PVal.nat 0))⟩,
               (m.get_session sid).1.update_session
                 { s with is_paused := false, current_state := none },
               ⟨"resumed"⟩) ∧
          dictGet ((m.get_session sid).1.update_session
              { s with is_paused := false, current_state := none }).sessions sid =
            some { s with is_paused := false, current_state := none }) ∧
       (d ≠ [] → dictGet d "coordinator" = none →
          c.resume_session m sid =
            Except.ok (c,
              (m.get_session sid).1.update_session
                { s with is_paused := false, current_state := none },
              ⟨"resumed"⟩))) := by
  intro c m sid s d hg hid hp hcs
  rcases hg2 : m.get_session sid with ⟨m1, o⟩
  have ho : o = some s := by rw [hg2] at hg; exact hg
  subst ho
  have hres : m.resume_session sid =
      (m1.update_session { s with is_paused := false, current_state := none },
        some d) := by
    unfold MemoryService.resume_session
    rw [hg2]
    simp [hp, hcs]
  have hsess : dictGet (m1.update_session
      { s with is_paused := false, current_state := none }).sessions sid =
      some { s with is_paused := false, current_state := none } := by
    unfold MemoryService.update_session
    simp [hid, dictGet_dictSet_self]
  have hget2 : (m1.update_session
      { s with is_paused := false, current_state := none }).get_session sid =
      (m1.update_session { s with is_paused := false, current_state := none },
        some { s with is_paused := false, current_state := none }) := by
    unfold MemoryService.get_session
    rw [hsess]
  refine ⟨?_, ?_, ?_⟩
  · intro hd
    subst hd
    unfold CoordinatorAgent.resume_session
    rw [hres]
  · intro cd hcd
    cases d with
    | nil => simp [dictGet] at hcd
    | cons e0 d0 =>
      refine ⟨?_, by simpa using hsess⟩
      unfold CoordinatorAgent.resume_session
      rw [hres]
      simp [hcd, hget2]
  · intro hne hcd
    cases d with
    | nil => exact absurd rfl hne
    | cons e0 d0 =>
      unfold CoordinatorAgent.resume_session
      rw [hres]
      simp [hcd, hget2]

/-- The well-formed pause payload fixture: a coordinator dict carrying turn
counter 5. -/
def anaPayload : List (String × PVal) :=
  [("coordinator", PVal.dict [("question_count", PVal.nat 5)])]

/-- Fixture: Ana's session paused with the anaPayload payload. -/
def mPausedAna : MemoryService :=
  mAna.pause_session "s1" anaPayload

/-- Fixture: Ana's paused record as stored in mPausedAna. -/
def sPausedAna : StudentSession :=
  { sAna with is_paused := true, current_state := some anaPayload }

/-- Witness for C2 at concrete inputs: resuming Ana's session restores the
stored counter 5 and reports "resumed". -/
theorem resume_session_amended_witness :
    ((mPausedAna.get_session "s1").2 = some sPausedAna ∧
      sPausedAna.session_id = "s1" ∧ sPausedAna.is_paused = true ∧
      sPausedAna.current_state =
        some [("coordinator", PVal.dict [("question_count", PVal.nat 5)])]) ∧
    (CoordinatorAgent.resume_session ⟨[]⟩ mPausedAna "s1" =
      Except.ok
        (⟨dictSet ([] : List (String × PVal)) "s1"
            ((dictGet [("question_count", PVal.nat 5)] "question_count").getD
              (PVal.nat 0))⟩,
         (mPausedAna.get_session "s1").1.update_session
           { sPausedAna with is_paused := false, current_state := none },
         ⟨"resumed"⟩) ∧
      dictGet ((mPausedAna.get_session "s1").1.update_session
          { sPausedAna with is_paused := false, current_state := none }).sessions
        "s1" = some { sPausedAna with is_paused := false, current_state := none }) :=
  ⟨⟨rfl, rfl, rfl, rfl⟩,
   (resume_session_amended ⟨[]⟩ mPausedAna "s1" sPausedAna
      [("coordinator", PVal.dict [("question_count", PVal.nat 5)])]
      rfl rfl rfl rfl).2.1 [("question_count", PVal.nat 5)] rfl⟩

/-! ## C5 - quiz parse of text without the required fields -/

/-- Does a (stripped) line match any marker of the generate_fact_quiz
if/elif chain? -/
def recognizedQuizLine (l : String) : Bool :=
  pyStartsWith l "QUESTION:" || pyStartsWith l "A)" || pyStartsWith l "B)" ||
  pyStartsWith l "C)" || pyStartsWith l "D)" || pyStartsWith l "CORRECT:" ||
  pyStartsWith l "EXPLANATION:"

theorem foldl_quizLineStep_unrecognized :
    ∀ (ls : List String) (st : QuizData),
      (∀ l ∈ ls, recognizedQuizLine (pyStrip l) = false) →
      List.foldl quizLineStep st ls = st := by
  intro ls
  induction ls with
  | nil => intro st _; rfl
  | cons hd tl ih =>
    intro st h
    have hhd := h hd (List.mem_cons_self hd tl)
    have hstep : quizLineStep st hd = st := by
      unfold recognizedQuizLine at hhd
      simp only [Bool.or_eq_false_iff] at hhd
      obtain ⟨⟨⟨⟨⟨⟨h1, h2⟩, h3⟩, h4⟩, h5⟩, h6⟩, h7⟩ := hhd
      simp [quizLineStep, h1, h2, h3, h4, h5, h6, h7]
    rw [List.foldl_cons, hstep]
    exact ih st fun l hl => h l (List.mem_cons_of_mem hd hl)

/-- C5 counterexample: on generated text with none of the required fields,
generate_fact_quiz does not return the raw text as the question body; the
parse loop simply matches no line, so the question comes back empty (the
options and correct answer are empty as claimed, and nothing is raised - the
parse is total). -/
theorem parse_fact_quiz_counterexample :
    (FactsAgent.parse_fact_quiz "hello world" "animals").question = "" ∧
    (FactsAgent.parse_fact_quiz "hello world" "animals").question ≠ "hello world" ∧
    (FactsAgent.parse_fact_quiz "hello world" "animals").options = [] ∧
    (FactsAgent.parse_fact_quiz "hello world" "animals").correct_answer = "" :=
  ⟨rfl, by decide, rfl, rfl⟩

/-- C5 amended: when no line of the generated text matches a required field
marker, generate_fact_quiz never raises and returns a quiz whose question,
options, correct answer and explanation are all empty (the raw text is not
propagated into the question body; the source's raw-text fallback sits in an
except handler that the total parse loop never triggers). -/
theorem parse_fact_quiz_amended :
    ∀ text cat : String,
      (∀ l ∈ pySplitLines (pyStrip text), recognizedQuizLine (pyStrip l) = false) →
      FactsAgent.parse_fact_quiz text cat = ⟨cat, "", [], "", ""⟩ := by
  intro text cat h
  unfold FactsAgent.parse_fact_quiz
  exact foldl_quizLineStep_unrecognized _ _ h

/-- Witness for C5 at the concrete input "hello world". -/
theorem parse_fact_quiz_amended_witness :
    (∀ l ∈ pySplitLines (pyStrip "hello world"),
      recognizedQuizLine (pyStrip l) = false) ∧
    FactsAgent.parse_fact_quiz "hello world" "animals" =
      ⟨"animals", "", [], "", ""⟩ :=
  ⟨by decide, parse_fact_quiz_amended "hello world" "animals" (by decide)⟩

/-! ## C8 - topic selection stays within the ceiling? -/

theorem weakest_subset_keys {p : StudentProgress} {t : Nat}
    (h : t ∈ p.get_weakest_timestables 3) :
    ∃ kv, kv ∈ p.weak_areas ∧ kv.1 = t := by
  unfold StudentProgress.get_weakest_timestables at h
  by_cases hw : p.weak_areas = []
  · rw [if_pos hw] at h
    cases h
  · rw [if_neg hw] at h
    rcases List.mem_map.mp h with ⟨kv, hkv, rfl⟩
    exact ⟨kv,
      (List.perm_insertionSort weakOrder p.weak_areas).subset
        (List.mem_of_mem_take hkv), rfl⟩

theorem weakest_ne_nil {p : StudentProgress} (hw : p.weak_areas ≠ []) :
    p.get_weakest_timestables 3 ≠ [] := by
  unfold StudentProgress.get_weakest_timestables
  rw [if_neg hw]
  intro hcon
  apply hw
  have h2 : List.take 3 (sortedWeakAreas p) = [] := List.map_eq_nil_iff.mp hcon
  have h3 : min 3 (sortedWeakAreas p).length = 0 := by
    simpa [List.length_take] using congrArg List.length h2
  have hperm := (List.perm_insertionSort weakOrder p.weak_areas).length_eq
  have hlen : p.weak_areas.length = 0 := by
    unfold sortedWeakAreas at h3
    omega
  exact List.length_eq_zero.mp hlen

theorem pyChoice_mem {α : Type} {xs : List α} (h : xs ≠ []) (u : Nat) :
    ∃ x, pyChoice xs u = some x ∧ x ∈ xs := by
  have hlen : 0 < xs.length := List.length_pos.mpr h
  have hm : u % xs.length < xs.length := Nat.mod_lt u hlen
  exact ⟨xs.get ⟨u % xs.length, hm⟩,
    by simp [pyChoice, List.get?_eq_get hm], List.get_mem xs _ hm⟩

/-- C8 counterexample: the claim quantifies over every progress state, but
for the state whose weak_areas records topic 13 (ceiling 12), a draw below
0.7 selects topic 13, outside [1, 12] - select_timestable only stays within
the ceiling when the recorded weak topics do. -/
theorem select_timestable_counterexample :
    MathTutorAgent.select_timestable ⟨"Kid", 12, 2, 0, [(13, 2)], []⟩ 12 0 0 0 =
      some 13 ∧ ¬(13 ≤ 12) := by
  constructor
  · unfold MathTutorAgent.select_timestable
    rw [if_pos ⟨by decide, by norm_num⟩]
    rfl
  · decide

/-- C8 amended: provided every topic recorded in weak_areas lies within
[1, topic_ceiling] (as holds for every state the program itself reaches) and
the ceiling is at least 1, select_timestable returns some topic in
[1, topic_ceiling]; and when weak_areas is empty the weak branch is never
taken - the result is the uniform draw, regardless of the random value r. -/
theorem select_timestable_amended :
    ∀ (p : StudentProgress) (maxT : Nat) (r : ℚ) (wc uc : Nat),
      1 ≤ maxT → (∀ kv ∈ p.weak_areas, 1 ≤ kv.1 ∧ kv.1 ≤ maxT) →
      ((∃ t, MathTutorAgent.select_timestable p maxT r wc uc = some t ∧
          1 ≤ t ∧ t ≤ maxT) ∧
       (p.weak_areas = [] →
         MathTutorAgent.select_timestable p maxT r wc uc = pyRandint1 maxT uc)) := by
  intro p maxT r wc uc hmax hkeys
  constructor
  · unfold MathTutorAgent.select_timestable
    by_cases hc : p.weak_areas ≠ [] ∧ r < 7/10
    · rw [if_pos hc]
      obtain ⟨t, hchoice, hmem⟩ := pyChoice_mem (weakest_ne_nil hc.1) wc
      obtain ⟨kv, hkv, hfst⟩ := weakest_subset_keys hmem
      obtain ⟨h1, h2⟩ := hkeys kv hkv
      exact ⟨t, hchoice, hfst ▸ h1, hfst ▸ h2⟩
    · rw [if_neg hc]
      have hne : maxT ≠ 0 := by omega
      have hmod : uc % maxT < maxT := Nat.mod_lt uc (by omega)
      exact ⟨1 + uc % maxT, by simp [pyRandint1, hne], by omega, by omega⟩
  · intro hw
    unfold MathTutorAgent.select_timestable
    rw [if_neg (by simp [hw])]

/-- Witness for C8 at concrete inputs: a fresh progress store (no weak
areas) with ceiling 12. -/
theorem select_timestable_amended_witness :
    ((1 : Nat) ≤ 12 ∧
      (∀ kv ∈ (freshProgress "Ana" 12).weak_areas, 1 ≤ kv.1 ∧ kv.1 ≤ 12)) ∧
    ((∃ t, MathTutorAgent.select_timestable (freshProgress "Ana" 12) 12 0 5 5 =
        some t ∧ 1 ≤ t ∧ t ≤ 12) ∧
     ((freshProgress "Ana" 12).weak_areas = [] →
       MathTutorAgent.select_timestable (freshProgress "Ana" 12) 12 0 5 5 =
         pyRandint1 12 5)) :=
  ⟨⟨by decide, by decide⟩,
   select_timestable_amended (freshProgress "Ana" 12) 12 0 5 5 (by decide) (by decide)⟩

/-! ## C9 - answer evaluation: parse failures score incorrect -/

theorem updatedSession_total (s : StudentSession) (qd : QuestionData)
    (ans : String) (b : Bool) (now : Nat) :
    (updatedSession s qd ans b now).progress.total_questions =
      s.progress.total_questions + 1 := by
  simp [updatedSession, update_progress_total]

theorem update_progress_history (p : StudentProgress) (t : Nat) (b : Bool) :
    (p.update_progress t b).question_history = p.question_history := by
  cases b <;> simp [StudentProgress.update_progress]

theorem updatedSession_history (s : StudentSession) (qd : QuestionData)
    (ans : String) (b : Bool) (now : Nat) :
    (updatedSession s qd ans b now).progress.question_history.length =
      s.progress.question_history.length + 1 := by
  simp [updatedSession, update_progress_history]

/-- C9: for a resolvable session, evaluate_answer always returns normally: a
raw answer that fails integer parsing scores as incorrect (never an error),
a parsed answer is correct exactly when it equals expected_answer, the
progress is updated (one more question, one more history entry) and the
mutated record is persisted under the session id; and every question payload
generate_question returns carries expected_answer equal to the exact integer
product timestable * multiplier. -/
theorem evaluate_answer_spec :
    ∀ (m : MemoryService) (sid : String) (s : StudentSession) (qd : QuestionData)
      (ans : String) (now : Nat),
      (m.get_session sid).2 = some s → s.session_id = sid →
      ((∃ m1 r, MathTutorAgent.evaluate_answer m sid qd ans now =
          Except.ok (m1, r) ∧
        (pyParseInt ans = none → r.correct = false) ∧
        (∀ k : Int, pyParseInt ans = some k →
          (r.correct = true ↔ k = qd.expected_answer)) ∧
        r.expected_answer = qd.expected_answer ∧
        r.total_questions = s.progress.total_questions + 1 ∧
        (∃ s1, dictGet m1.sessions sid = some s1 ∧
          s1.progress.total_questions = s.progress.total_questions + 1 ∧
          s1.progress.question_history.length =
            s.progress.question_history.length + 1)) ∧
       (∀ (m2 : MemoryService) (sid2 : String) (r2 : ℚ) (wc uc mc : Nat)
          (qt : String) (m3 : MemoryService) (qd2 : QuestionData),
          MathTutorAgent.generate_question m2 sid2 r2 wc uc mc qt =
            Except.ok (m3, qd2) →
          qd2.expected_answer = (qd2.timestable : Int) * (qd2.multiplier : Int))) := by
  intro m sid s qd ans now hg hid
  constructor
  · rcases hg2 : m.get_session sid with ⟨mg, o⟩
    have ho : o = some s := by rw [hg2] at hg; exact hg
    subst ho
    have hev : MathTutorAgent.evaluate_answer m sid qd ans now =
        Except.ok (mg.update_session (updatedSession s qd ans (scoreAnswer qd ans) now),
          ⟨scoreAnswer qd ans, qd.expected_answer,
           (updatedSession s qd ans (scoreAnswer qd ans) now).progress.get_accuracy,
           (updatedSession s qd ans (scoreAnswer qd ans) now).progress.total_questions⟩) := by
      unfold MathTutorAgent.evaluate_answer
      rw [hg2]
    refine ⟨_, _, hev, ?_, ?_, rfl, ?_, ?_⟩
    · intro hpi
      simp [scoreAnswer, hpi]
    · intro k hpi
      simp [scoreAnswer, hpi]
    · exact updatedSession_total s qd ans (scoreAnswer qd ans) now
    · refine ⟨updatedSession s qd ans (scoreAnswer qd ans) now, ?_,
        updatedSession_total s qd ans (scoreAnswer qd ans) now,
        updatedSession_history s qd ans (scoreAnswer qd ans) now⟩
      unfold MemoryService.update_session
      have hsid : (updatedSession s qd ans (scoreAnswer qd ans) now).session_id = sid := by
        simpa [updatedSession] using hid
      rw [show (updatedSession s qd ans (scoreAnswer qd ans) now).session_id = sid
            from hsid] at *
      simp [hsid, dictGet_dictSet_self]
  · intro m2 sid2 r2 wc uc mc qt m3 qd2 hgen
    unfold MathTutorAgent.generate_question at hgen
    split at hgen
    · cases hgen
    · split at hgen
      · cases hgen
      · split at hgen
        · cases hgen
        · cases hgen
          rfl

/-- Witness for C9 at concrete inputs: Ana answers "12" to 3 times 4. -/
theorem evaluate_answer_spec_witness :
    ((mAna.get_session "s1").2 = some sAna ∧ sAna.session_id = "s1") ∧
    ((∃ m1 r, MathTutorAgent.evaluate_answer mAna "s1" ⟨"q", 3, 4, 12, "s1"⟩ "12" 1 =
        Except.ok (m1, r) ∧
      (pyParseInt "12" = none → r.correct = false) ∧
      (∀ k : Int, pyParseInt "12" = some k → (r.correct = true ↔ k = 12)) ∧
      r.expected_answer = 12 ∧
      r.total_questions = sAna.progress.total_questions + 1 ∧
      (∃ s1, dictGet m1.sessions "s1" = some s1 ∧
        s1.progress.total_questions = sAna.progress.total_questions + 1 ∧
        s1.progress.question_history.length =
          sAna.progress.question_history.length + 1)) ∧
     (∀ (m2 : MemoryService) (sid2 : String) (r2 : ℚ) (wc uc mc : Nat)
        (qt : String) (m3 : MemoryService) (qd2 : QuestionData),
        MathTutorAgent.generate_question m2 sid2 r2 wc uc mc qt =
          Except.ok (m3, qd2) →
        qd2.expected_answer = (qd2.timestable : Int) * (qd2.multiplier : Int))) :=
  ⟨⟨rfl, rfl⟩,
   evaluate_answer_spec mAna "s1" sAna ⟨"q", 3, 4, 12, "s1"⟩ "12" 1 rfl rfl⟩

/-! ## C10 - blank quiz answers against an empty correct answer -/

/-- C10: when the stored correct answer is absent or empty (exactly what the
quiz parser's fallback produces) and the submitted answer is whitespace-only
(including empty), evaluate_quiz_answer reports the answer correct: both
sides strip and uppercase to the empty string. -/
theorem evaluate_quiz_answer_blank :
    ∀ (ca : Option String) (ans : String),
      (ca = none ∨ ca = some "") → pyStrip ans = "" →
      FactsAgent.evaluate_quiz_answer ca ans = true := by
  intro ca ans hca hans
  rcases hca with rfl | rfl <;>
    · unfold FactsAgent.evaluate_quiz_answer
      rw [hans]
      rfl

/-- Witness for C10: an all-whitespace submission against an absent correct
answer. -/
theorem evaluate_quiz_answer_blank_witness :
    pyStrip "  " = "" ∧
    FactsAgent.evaluate_quiz_answer none "  " = true :=
  ⟨rfl, evaluate_quiz_answer_blank none "  " (Or.inl rfl) rfl⟩

end MathsTutor
